/-
Verification of the device-discovery, handshake and persistent-connection
layer of the RFID reader application (`main.py`, class `RFIDSystem`).

The Python source is shallowly embedded: every environment interaction
(serial port open, write, readline, buffer reset, enumeration) is made an
explicit input, and each function of the source becomes a Lean function
over those inputs.  Timing constants are represented in milliseconds
(the source uses float seconds: 2.0 s -> 2000 ms, 0.15 s -> 150 ms,
2.5 s -> 2500 ms).
-/
import Mathlib

namespace RFID

/-! ## String helpers mirroring the Python primitives used by the source -/

/-- Character-list test: does `pre` occur at the head of `hay`? -/
def listStartsWith : List Char → List Char → Bool
  | [], _ => true
  | _ :: _, [] => false
  | a :: as, b :: bs => a == b && listStartsWith as bs

/-- Substring occurrence test on character lists (used to model the Python membership
test `"device" in str(e)`). -/
def listContainsSub (needle : List Char) : List Char → Bool
  | [] => needle.isEmpty
  | c :: cs => listStartsWith needle (c :: cs) || listContainsSub needle cs

/-- Python `needle in hay` on strings. -/
def strContainsSub (needle hay : String) : Bool :=
  listContainsSub needle.toList hay.toList

/-- The characters Python `str.strip()` removes. -/
def isPyWs (c : Char) : Bool :=
  c == ' ' || c == '\t' || c == '\n' || c == '\r' || c == '\x0b' || c == '\x0c'

/-- Python `str.strip()` (ASCII whitespace; the source never feeds it
other whitespace). -/
def pyStrip (s : String) : String :=
  String.mk (((s.toList.dropWhile isPyWs).reverse.dropWhile isPyWs).reverse)

/-- Python `str.startswith`. -/
def pyStartsWith (s pre : String) : Bool :=
  listStartsWith pre.toList s.toList

/-- Python `str.endswith`. -/
def pyEndsWith (s suf : String) : Bool :=
  listStartsWith suf.toList.reverse s.toList.reverse

/-! ## JSON values, `json.loads` and `json.dumps`

A model of the Python `json` module at the level this program exercises:
integer numbers, strings without escape sequences, booleans, `null`,
arrays and objects.  `json_loads` is a recursive-descent parser over the
characters; like the Python one, it skips surrounding whitespace and rejects
trailing garbage.  Lookup in a decoded object follows `dict` semantics:
a duplicated key keeps the value bound last. -/

inductive Json where
  | null : Json
  | bool (b : Bool) : Json
  | num (n : Int) : Json
  | str (s : String) : Json
  | arr (items : List Json) : Json
  | obj (fields : List (String × Json)) : Json

/-- Python `dict.get k` on the fields of a decoded JSON object
(`json.loads` keeps the last binding of a duplicated key). -/
def dictGet (fields : List (String × Json)) (k : String) : Option Json :=
  ((fields.filter (fun p => p.1 == k)).getLast?).map Prod.snd

/-- JSON whitespace skipping (space, tab, newline, carriage return). -/
def jsonSkipWs : List Char → List Char
  | [] => []
  | c :: cs =>
    if c == ' ' || c == '\t' || c == '\n' || c == '\r' then jsonSkipWs cs
    else c :: cs

/-- Parse the body of a JSON string literal (opening quote already
consumed); escape sequences are outside the model and rejected. -/
def parseStrAux : List Char → List Char → Option (String × List Char)
  | [], _ => none
  | c :: cs, acc =>
    if c == '"' then some (String.mk acc.reverse, cs)
    else if c == '\\' then none
    else parseStrAux cs (c :: acc)

/-- Parse a nonempty digit run into a natural number. -/
def parseDigitsAux : List Char → Nat → List Char × Nat
  | [], acc => ([], acc)
  | c :: cs, acc =>
    if c.isDigit then parseDigitsAux cs (acc * 10 + (c.toNat - '0'.toNat))
    else (c :: cs, acc)

mutual

/-- Parse one JSON value; `fuel` dominates the input length. -/
def parseVal : Nat → List Char → Option (Json × List Char)
  | 0, _ => none
  | fuel + 1, cs =>
    match jsonSkipWs cs with
    | [] => none
    | 'n' :: 'u' :: 'l' :: 'l' :: rest => some (Json.null, rest)
    | 't' :: 'r' :: 'u' :: 'e' :: rest => some (Json.bool true, rest)
    | 'f' :: 'a' :: 'l' :: 's' :: 'e' :: rest => some (Json.bool false, rest)
    | '"' :: rest =>
      match parseStrAux rest [] with
      | some (s, rest') => some (Json.str s, rest')
      | none => none
    | '[' :: rest =>
      (match jsonSkipWs rest with
       | ']' :: rest' => some (Json.arr [], rest')
       | other => match parseItems fuel other with
         | some (items, rest') => some (Json.arr items, rest')
         | none => none)
    | '{' :: rest =>
      (match jsonSkipWs rest with
       | '}' :: rest' => some (Json.obj [], rest')
       | other => match parseMembers fuel other with
         | some (fields, rest') => some (Json.obj fields, rest')
         | none => none)
    | '-' :: rest =>
      (match rest with
       | c :: _ =>
         if c.isDigit then
           match parseDigitsAux rest 0 with
           | (rest', n) => some (Json.num (-(n : Int)), rest')
         else none
       | [] => none)
    | c :: rest =>
      if c.isDigit then
        match parseDigitsAux (c :: rest) 0 with
        | (rest', n) => some (Json.num (n : Int), rest')
      else none

/-- Parse the elements of a nonempty JSON array (after `[`). -/
def parseItems : Nat → List Char → Option (List Json × List Char)
  | 0, _ => none
  | fuel + 1, cs =>
    match parseVal fuel cs with
    | some (v, rest) =>
      (match jsonSkipWs rest with
       | ']' :: rest' => some ([v], rest')
       | ',' :: rest' =>
         (match parseItems fuel rest' with
          | some (items, rest'') => some (v :: items, rest'')
          | none => none)
       | _ => none)
    | none => none

/-- Parse the members of a nonempty JSON object (after `{`). -/
def parseMembers : Nat → List Char → Option (List (String × Json) × List Char)
  | 0, _ => none
  | fuel + 1, cs =>
    match jsonSkipWs cs with
    | '"' :: rest =>
      (match parseStrAux rest [] with
       | some (k, rest') =>
         (match jsonSkipWs rest' with
          | ':' :: rest'' =>
            (match parseVal fuel rest'' with
             | some (v, rest3) =>
               (match jsonSkipWs rest3 with
                | '}' :: rest4 => some ([(k, v)], rest4)
                | ',' :: rest4 =>
                  (match parseMembers fuel rest4 with
                   | some (fields, rest5) => some ((k, v) :: fields, rest5)
                   | none => none)
                | _ => none)
             | none => none)
          | _ => none)
       | none => none)
    | _ => none

end

/-- Python `json.loads`, specialised to the fragment the program uses.
Fails (raising `JSONDecodeError` in the source, `none` here) on anything
that is not a single JSON value surrounded only by whitespace. -/
def json_loads (s : String) : Option Json :=
  match parseVal (s.toList.length + 1) s.toList with
  | some (v, rest) => if jsonSkipWs rest = [] then some v else none
  | none => none

mutual

/-- Python `json.dumps` with default separators (`", "` and `": "`);
strings are emitted without escaping, which is exact for every string
the program serialises. -/
def json_dumps : Json → String
  | Json.null => "null"
  | Json.bool true => "true"
  | Json.bool false => "false"
  | Json.num n => toString n
  | Json.str s => "\"" ++ s ++ "\""
  | Json.arr items => "[" ++ String.intercalate ", " (dumpsItems items) ++ "]"
  | Json.obj fields => "\x7b" ++ String.intercalate ", " (dumpsMembers fields) ++ "\x7d"

/-- Serialise array elements in order. -/
def dumpsItems : List Json → List String
  | [] => []
  | v :: vs => json_dumps v :: dumpsItems vs

/-- Serialise object members in order. -/
def dumpsMembers : List (String × Json) → List String
  | [] => []
  | (k, v) :: fs => ("\"" ++ k ++ "\": " ++ json_dumps v) :: dumpsMembers fs

end

/-! ## Wire-protocol constants (module level in `main.py`) -/

/-- Source constant `BAUD_RATE = 9600`. -/
def BAUD_RATE : Nat := 9600

/-- Source constant `HEALTHCHECK_JSON = {"healtcheck": 1}` (the typo is in
the source). -/
def HEALTHCHECK_JSON : Json := Json.obj [("healtcheck", Json.num 1)]

/-- Source constant `HEALTHCHECK_TIMEOUT = 2.5` (seconds), in milliseconds. -/
def HEALTHCHECK_TIMEOUT_MS : Nat := 2500

/-- Source constant `SERIAL_OPEN_RESET_WAIT = 2.0` (seconds), in milliseconds. -/
def SERIAL_OPEN_RESET_WAIT_MS : Nat := 2000

/-- Source constant `HEALTHCHECK_ATTEMPTS = 3`. -/
def HEALTHCHECK_ATTEMPTS : Nat := 3

/-- Source constant `HEALTHCHECK_INTERVAL = 0.15` (seconds), in milliseconds. -/
def HEALTHCHECK_INTERVAL_MS : Nat := 150

/-- The exact bytes written by each healthcheck transmission:
`json.dumps(HEALTHCHECK_JSON).encode("utf-8") + b"\n"`. -/
def PAYLOAD : String := json_dumps HEALTHCHECK_JSON ++ "\n"

/-! ## The handshake probe: `RFIDSystem.intentar_healthcheck_en_puerto`

The environment of one probe run is a `ProbeScript`: whether
`serial.Serial(port, ...)` succeeds, the outcome of each of the three
`ser.write(payload); ser.flush()` transmissions, and the sequence of
events the listen loop observes during its `HEALTHCHECK_TIMEOUT`
window. -/

/-- One iteration of a listen loop: `ser.readline()` either yields a
(possibly empty) decoded line or raises, which the `except: continue`
inside the loop swallows. -/
inductive LineEvent where
  | line (s : String) : LineEvent
  | readError : LineEvent
deriving DecidableEq

/-- The acceptance test the listen loop applies to one raw line
(`line = ser.readline().decode(errors="ignore").strip()` followed by
`line.startswith("{") and line.endswith("}")`, `json.loads`, and
`isinstance(data, dict) and data.get("status") == "online"`).
A `json.loads` failure is caught by the `except` clause of the loop, which
then continues, which here is `false`. -/
def esRespuestaOnline (raw : String) : Bool :=
  pyStartsWith (pyStrip raw) "\x7b" && pyEndsWith (pyStrip raw) "\x7d" &&
    (match json_loads (pyStrip raw) with
     | some (Json.obj fields) =>
       (match dictGet fields "status" with
        | some (Json.str s) => s == "online"
        | _ => false)
     | _ => false)

/-- Listen loop of the probe over the events of the window: return `true`
on the first qualifying line, `false` when the window expires. -/
def hc_listen : List LineEvent → Bool
  | [] => false
  | LineEvent.readError :: evs => hc_listen evs
  | LineEvent.line s :: evs => if esRespuestaOnline s then true else hc_listen evs

/-- Environment of one `intentar_healthcheck_en_puerto` run.  `writeOk`
lists the outcomes of the write attempts positionally (missing entries
default to success); `events` is what the listen window observes. -/
structure ProbeScript where
  openOk : Bool
  writeOk : List Bool
  events : List LineEvent

/-- Did all `HEALTHCHECK_ATTEMPTS` transmissions succeed? -/
def allWritesOk (scr : ProbeScript) : Bool :=
  (List.range HEALTHCHECK_ATTEMPTS).all (fun i => scr.writeOk.getD i true)

/-- The probe `intentar_healthcheck_en_puerto`, as (result, port left open
on return).  Paths of the source:
* `serial.Serial` raises → outer `except` → `(False, no port opened)`;
* some `ser.write`/`ser.flush` raises → outer `except` returns `False`
  with no intervening `ser.close()` → port left open;
* otherwise the listen loop decides the result and both the success
  return and the window-expiry return call `ser.close()` first. -/
def intentar_healthcheck_en_puerto (scr : ProbeScript) : Bool × Bool :=
  if scr.openOk then
    if allWritesOk scr then
      (hc_listen scr.events, false)
    else
      (false, true)
  else
    (false, false)

/-- Externally visible actions of the probe and of connection opening,
in source order.  Durations are milliseconds. -/
inductive Action where
  | settleMs (ms : Nat) : Action
  | clearInput : Action
  | clearOutput : Action
  | writeBytes (payload : String) : Action
  | flush : Action
  | sleepMs (ms : Nat) : Action
  | listenMs (ms : Nat) : Action
deriving DecidableEq

/-- Actions of the transmission loop `for i in range(HEALTHCHECK_ATTEMPTS)`:
each iteration writes the payload, flushes, sleeps the interval; a failing
write raises and aborts the loop (after the attempted write). -/
def writesTrace : List Bool → List Action
  | [] => []
  | true :: rest =>
    Action.writeBytes PAYLOAD :: Action.flush :: Action.sleepMs HEALTHCHECK_INTERVAL_MS
      :: writesTrace rest
  | false :: _ => [Action.writeBytes PAYLOAD]

/-- The action trace of one probe run: after a successful open come the
boot-settle wait, both buffer resets, the three transmissions, and the
listen window; an open failure performs nothing. -/
def probeActions (scr : ProbeScript) : List Action :=
  if scr.openOk then
    Action.settleMs SERIAL_OPEN_RESET_WAIT_MS :: Action.clearInput :: Action.clearOutput ::
      (writesTrace ((List.range HEALTHCHECK_ATTEMPTS).map (fun i => scr.writeOk.getD i true)) ++
       if allWritesOk scr then [Action.listenMs HEALTHCHECK_TIMEOUT_MS] else [])
  else []

/-! ## The persistent connection: state and `abrir_conexion_serial` -/

/-- A serial handle: open flag, the port it was opened on, and the lines
already sitting in the host input buffer. -/
structure Conn where
  isOpen : Bool
  port : String
  pending : List String
deriving DecidableEq

/-- The connection-relevant attributes of `RFIDSystem`: `self.puerto`
and `self.serial_connection`. -/
structure SysState where
  puerto : Option String
  serial_connection : Option Conn
deriving DecidableEq

/-- The source function `abrir_conexion_serial`, as (result, new state,
post-open action trace).  Environment: whether `serial.Serial(self.puerto, ...)` succeeds,
and the junk lines held by the input buffer of the fresh handle at open (which
`reset_input_buffer` then discards).  An already-open prior connection is
closed first; on open failure `self.serial_connection` keeps its prior
(now closed) value and `False` is returned. -/
def abrir_conexion_serial (st : SysState) (openOk : Bool) (bootJunk : List String) :
    Bool × SysState × List Action :=
  let st1 : SysState :=
    match st.serial_connection with
    | some c =>
      if c.isOpen then { st with serial_connection := some { c with isOpen := false } } else st
    | none => st
  if openOk then
    let fresh : Conn := { isOpen := true, port := st.puerto.getD "", pending := bootJunk }
    let fresh2 : Conn := { fresh with pending := [] }
    (true, { st1 with serial_connection := some fresh2 },
      [Action.settleMs SERIAL_OPEN_RESET_WAIT_MS, Action.clearInput])
  else
    (false, st1, [])

/-! ## The UID reader: `leer_uid` -/

/-- One iteration of the `leer_uid` polling loop:
* `tick` — `in_waiting == 0`, the iteration just sleeps;
* `line s` — a line is available and `readline` yields `s`;
* `ioError msg reopenOk` — a serial operation raises an exception whose
  text is `msg`; `reopenOk` is the outcome `abrir_conexion_serial` would
  have if the handler attempts a reopen. -/
inductive ReadEvent where
  | tick : ReadEvent
  | line (s : String) : ReadEvent
  | ioError (msg : String) (reopenOk : Bool) : ReadEvent

/-- Outcome of `leer_uid`. -/
inductive ReadResult where
  | uid (v : Json) : ReadResult
  | timeout : ReadResult
  | connectionLost : ReadResult
  | noConnection : ReadResult

/-- Python `str.lower` (ASCII). -/
def pyToLower (s : String) : String := String.mk (s.toList.map Char.toLower)

/-- Classification used by the source for a caught exception as device/port
loss: `"device" in str(e).lower() or "port" in str(e).lower()`. -/
def esErrorDePuerto (msg : String) : Bool :=
  strContainsSub "device" (pyToLower msg) || strContainsSub "port" (pyToLower msg)

/-- The `while time.time() - start < timeout_global` loop of `leer_uid`,
instrumented with the number of reopen attempts made.  Exhausting the
events is the timeout elapsing: `raise TimeoutError("No se recibió UID")`.
A line is stripped; an empty line is skipped; `json.loads` failure
(`except json.JSONDecodeError`) skips the line; a decoded `dict`
containing `"uid"` returns `data["uid"]`; any other value is skipped.
A caught exception classified as device/port loss triggers exactly one
`abrir_conexion_serial` call: on success the loop continues, on failure
`Exception("Perdida de conexión serial")` is raised.  An unclassified
exception is swallowed and the loop continues. -/
def leer_uid_loop_aux : List ReadEvent → ReadResult × Nat
  | [] => (ReadResult.timeout, 0)
  | ReadEvent.tick :: evs => leer_uid_loop_aux evs
  | ReadEvent.line s :: evs =>
    if pyStrip s = "" then leer_uid_loop_aux evs
    else
      (match json_loads (pyStrip s) with
       | some (Json.obj fields) =>
         (match dictGet fields "uid" with
          | some v => (ReadResult.uid v, 0)
          | none => leer_uid_loop_aux evs)
       | some _ => leer_uid_loop_aux evs
       | none => leer_uid_loop_aux evs)
  | ReadEvent.ioError msg reopenOk :: evs =>
    if esErrorDePuerto msg then
      if reopenOk then
        (match leer_uid_loop_aux evs with
         | (r, n) => (r, n + 1))
      else (ReadResult.connectionLost, 1)
    else leer_uid_loop_aux evs

/-- The result of the `leer_uid` polling loop. -/
def leer_uid_loop (evs : List ReadEvent) : ReadResult :=
  (leer_uid_loop_aux evs).1

/-- The source function `leer_uid`: if the connection is absent or closed, call
`abrir_conexion_serial` (failure raises
`Exception("No se pudo establecer conexión serial")`); then
`reset_input_buffer` discards every line delivered before the call, and
the polling loop runs over the events arriving after the call. -/
def leer_uid (st : SysState) (openOk : Bool) (bootJunk : List String)
    (evs : List ReadEvent) : ReadResult :=
  let needOpen : Bool :=
    match st.serial_connection with
    | some c => !c.isOpen
    | none => true
  if needOpen then
    match abrir_conexion_serial st openOk bootJunk with
    | (true, st2, _) =>
      (match st2.serial_connection with
       | some c =>
         leer_uid_loop (({ c with pending := [] }).pending.map ReadEvent.line ++ evs)
       | none => ReadResult.noConnection)
    | (false, _, _) => ReadResult.noConnection
  else
    match st.serial_connection with
    | some c =>
      leer_uid_loop (({ c with pending := [] }).pending.map ReadEvent.line ++ evs)
    | none => ReadResult.noConnection

/-! ## Discovery: `encontrar_puerto_arduino` -/

/-- The `(puerto, estado)` pairs `encontrar_puerto_arduino` returns:
`(None, "no_ports_found")`, `(puerto, "found")`, `(None, "not_found")`. -/
inductive FindOutcome where
  | found (puerto : String) : FindOutcome
  | noPortsFound : FindOutcome
  | notFound : FindOutcome
deriving DecidableEq

/-- The `for puerto in puertos` probe loop, instrumented with the number
of probe attempts made (`intentar_healthcheck_en_puerto` never raises, so
its `except: continue` guard is inert). -/
def encontrar_loop (probe : String → Bool) : List String → Option String × Nat
  | [] => (none, 0)
  | p :: ps =>
    if probe p then (some p, 1)
    else
      (match encontrar_loop probe ps with
       | (r, n) => (r, n + 1))

/-- Discovery function `encontrar_puerto_arduino`.  The enumeration
`[p.device for p in list_ports.comports()]` is not guarded by any
handler, so an enumeration failure propagates to the caller (`.error`);
a successful enumeration is probed sequentially. -/
def encontrar_puerto_arduino (enum : Except String (List String))
    (probe : String → Bool) : Except String (FindOutcome × Nat) :=
  match enum with
  | Except.error e => Except.error e
  | Except.ok ps =>
    if ps = [] then Except.ok (FindOutcome.noPortsFound, 0)
    else
      match encontrar_loop probe ps with
      | (some p, n) => Except.ok (FindOutcome.found p, n)
      | (none, n) => Except.ok (FindOutcome.notFound, n)

/-- The UID the polling loop extracts from one event, if any: the line,
stripped, must decode to a JSON object whose `"uid"` lookup succeeds. -/
def eventUid : ReadEvent → Option Json
  | ReadEvent.line s =>
    (match json_loads (pyStrip s) with
     | some (Json.obj fields) => dictGet fields "uid"
     | _ => none)
  | _ => none

/-- No serial operation raises during the observed events. -/
def noSerialErrors (evs : List ReadEvent) : Bool :=
  evs.all (fun e => match e with | ReadEvent.ioError _ _ => false | _ => true)

/-! ## Concurrency: the connection lock

The source guards every byte-level operation on the persistent
connection (`in_waiting`, `readline`, `reset_input_buffer`, and the
reopen performed by the error handler) inside the single
`with self.connection_lock:` block of `leer_uid`
(`self.connection_lock = threading.Lock()` in `__init__`).  The model
below embeds that shape: each caller runs `lockedSection body`, an
acquire, then its transport operations, then the release, and an
interleaving semantics lets two callers alternate arbitrarily.  The
lock is the only synchronisation: an acquire step requires the lock
free, transport and release steps are always enabled at the head of a
program. -/

/-- One instruction of a caller of `leer_uid`. -/
inductive Instr where
  | acquire : Instr
  | transport (opId : Nat) : Instr
  | release : Instr
deriving DecidableEq

/-- The instruction sequence of one `leer_uid` call: the body runs
entirely between the acquire and the release of `connection_lock`. -/
def lockedSection (body : List Nat) : List Instr :=
  Instr.acquire :: (body.map Instr.transport ++ [Instr.release])

/-- Shared state of two concurrent callers: the lock (holder, if any)
and the remaining program of each caller. -/
structure LockSys where
  lock : Option Bool
  prog0 : List Instr
  prog1 : List Instr
deriving DecidableEq

/-- Remaining program of caller `t`. -/
def progOf (s : LockSys) : Bool → List Instr
  | false => s.prog0
  | true => s.prog1

/-- Replace the remaining program of caller `t`. -/
def setProg (s : LockSys) : Bool → List Instr → LockSys
  | false, p => { s with prog0 := p }
  | true, p => { s with prog1 := p }

/-- Interleaving semantics.  `threading.Lock.acquire` blocks unless the
lock is free; a transport operation executes whenever scheduled; the
`with` block exit releases the lock. -/
inductive LockStep : LockSys → LockSys → Prop where
  | acq : ∀ (s : LockSys) (t : Bool) (rest : List Instr),
      progOf s t = Instr.acquire :: rest → s.lock = none →
      LockStep s { setProg s t rest with lock := some t }
  | tra : ∀ (s : LockSys) (t : Bool) (k : Nat) (rest : List Instr),
      progOf s t = Instr.transport k :: rest →
      LockStep s (setProg s t rest)
  | rel : ∀ (s : LockSys) (t : Bool) (rest : List Instr),
      progOf s t = Instr.release :: rest →
      LockStep s { setProg s t rest with lock := none }

/-- Initial state: lock free, both callers about to run `leer_uid`. -/
def lockInit (b0 b1 : List Nat) : LockSys :=
  { lock := none, prog0 := lockedSection b0, prog1 := lockedSection b1 }

/-- States reachable by interleaving the two callers. -/
inductive LockReach (b0 b1 : List Nat) : LockSys → Prop where
  | init : LockReach b0 b1 (lockInit b0 b1)
  | step : ∀ {s s' : LockSys}, LockReach b0 b1 s → LockStep s s' → LockReach b0 b1 s'

/-- A caller is inside its critical section: it has performed its
acquire and its release is still pending. -/
def midProg (p : List Instr) : Prop :=
  ∃ l : List Nat, p = l.map Instr.transport ++ [Instr.release]

/-! ## Theorems -/

lemma statusMatch_iff (o : Option Json) :
    (match o with
     | some (Json.obj fields) =>
       (match dictGet fields "status" with
        | some (Json.str s) => s == "online"
        | _ => false)
     | _ => false) = true ↔
      ∃ fields, o = some (Json.obj fields) ∧
        dictGet fields "status" = some (Json.str "online") := by
  rcases o with _ | v
  · simp
  · rcases v with _ | b | n | t | items | fields
    · simp
    · simp
    · simp
    · simp
    · simp
    · rcases hd : dictGet fields "status" with _ | j
      · simp [hd]
      · rcases j with _ | b | n | t | items | fs <;> simp [hd]

lemma esRespuestaOnline_iff (s : String) :
    esRespuestaOnline s = true ↔
      pyStartsWith (pyStrip s) "\x7b" = true ∧ pyEndsWith (pyStrip s) "\x7d" = true ∧
      ∃ fields, json_loads (pyStrip s) = some (Json.obj fields) ∧
        dictGet fields "status" = some (Json.str "online") := by
  unfold esRespuestaOnline
  rw [Bool.and_eq_true, Bool.and_eq_true, statusMatch_iff (json_loads (pyStrip s))]
  tauto

lemma hc_listen_iff (evs : List LineEvent) :
    hc_listen evs = true ↔ ∃ s, LineEvent.line s ∈ evs ∧ esRespuestaOnline s = true := by
  induction evs with
  | nil => simp [hc_listen]
  | cons e evs ih =>
    cases e with
    | readError =>
      rw [hc_listen]
      simp only [List.mem_cons, ih]
      constructor
      · rintro ⟨s, hs, h⟩; exact ⟨s, Or.inr hs, h⟩
      · rintro ⟨s, hs | hs, h⟩
        · cases hs
        · exact ⟨s, hs, h⟩
    | line s0 =>
      rw [hc_listen]
      by_cases he : esRespuestaOnline s0 = true
      · simp only [he, if_true, true_iff]
        exact ⟨s0, List.mem_cons_self _ _, he⟩
      · simp only [Bool.not_eq_true] at he
        simp only [he, Bool.false_eq_true, if_false, ih, List.mem_cons]
        constructor
        · rintro ⟨s, hs, h⟩; exact ⟨s, Or.inr hs, h⟩
        · rintro ⟨s, hs | hs, h⟩
          · cases hs; rw [h] at he; cases he
          · exact ⟨s, hs, h⟩

/-- C2: on a successfully opened and written port, the handshake probe
succeeds if and only if some line observed within the listen window —
once stripped — begins with `{`, ends with `}`, decodes to a JSON
object, and that object binds `"status"` to the string `"online"`;
empty, non-JSON and non-qualifying lines, and read errors, are skipped,
and an exhausted window yields failure. -/
theorem claim_C2_healthcheck_reply (evs : List LineEvent) :
    (intentar_healthcheck_en_puerto ⟨true, [], evs⟩).1 = true ↔
      ∃ s, LineEvent.line s ∈ evs ∧
        pyStartsWith (pyStrip s) "\x7b" = true ∧ pyEndsWith (pyStrip s) "\x7d" = true ∧
        ∃ fields, json_loads (pyStrip s) = some (Json.obj fields) ∧
          dictGet fields "status" = some (Json.str "online") := by
  have hred : (intentar_healthcheck_en_puerto ⟨true, [], evs⟩).1 = hc_listen evs := rfl
  rw [hred, hc_listen_iff]
  constructor
  · rintro ⟨s, hs, h⟩
    exact ⟨s, hs, (esRespuestaOnline_iff s).mp h⟩
  · rintro ⟨s, hs, h⟩
    exact ⟨s, hs, (esRespuestaOnline_iff s).mpr h⟩

/-- C3 counterexample: a probe run in which the port opens successfully
and the first healthcheck transmission raises returns failure with the
port still open — the bare outer `except` returns without `ser.close()`,
so the probe does not close the port on every return path. -/
theorem claim_C3_counterexample :
    intentar_healthcheck_en_puerto ⟨true, [false], []⟩ = (false, true) := by rfl

/-- C3 amended: for a probe run whose port open succeeded, the port is
closed before the probe returns exactly when all three transmissions
succeed (the success path and the window-expiry path both close the
port, and read errors during the window are swallowed and end in the
expiry path); an I/O error during a transmission escapes to the
catch-all and leaves the port open. -/
theorem claim_C3_port_close (scr : ProbeScript) (h : scr.openOk = true) :
    (intentar_healthcheck_en_puerto scr).2 = false ↔ allWritesOk scr = true := by
  unfold intentar_healthcheck_en_puerto
  rw [h]
  by_cases hw : allWritesOk scr = true
  · simp [hw]
  · simp only [Bool.not_eq_true] at hw
    simp [hw]

/-- Instantiation of C3 amended at a run with a successful open and all
transmissions succeeding. -/
theorem claim_C3_port_close_witness :
    (⟨true, [], []⟩ : ProbeScript).openOk = true ∧
      ((intentar_healthcheck_en_puerto ⟨true, [], []⟩).2 = false ↔
        allWritesOk ⟨true, [], []⟩ = true) :=
  ⟨rfl, claim_C3_port_close ⟨true, [], []⟩ rfl⟩

lemma writeOutcomes_all_ok (scr : ProbeScript) (h : allWritesOk scr = true) :
    (List.range HEALTHCHECK_ATTEMPTS).map (fun i => scr.writeOk.getD i true) =
      [true, true, true] := by
  unfold allWritesOk at h
  rw [show List.range HEALTHCHECK_ATTEMPTS = [0, 1, 2] from rfl] at h
  simp only [List.all_cons, List.all_nil, Bool.and_true, Bool.and_eq_true] at h
  rw [show List.range HEALTHCHECK_ATTEMPTS = [0, 1, 2] from rfl]
  simp only [List.map_cons, List.map_nil]
  rw [h.1, h.2.1, h.2.2]

/-- C6: whenever the port opens and no transmission raises, the probe
waits the 2.0 s boot settle, clears both buffers, then — regardless of
what the device later sends — writes the exact bytes
`json.dumps({"healtcheck": 1}) + "\n"` and flushes, exactly 3 times at
150 ms intervals, unconditionally, and then listens for 2.5 s; and the
transmitted payload decoded by the reference JSON parser yields the
original value `HEALTHCHECK_JSON` (round-trip), the payload being the
seventeen characters `{"healtcheck": 1}` plus the newline. -/
theorem claim_C6_probe_transmission (scr : ProbeScript) (h1 : scr.openOk = true)
    (h2 : allWritesOk scr = true) :
    probeActions scr =
      [Action.settleMs SERIAL_OPEN_RESET_WAIT_MS, Action.clearInput, Action.clearOutput,
       Action.writeBytes PAYLOAD, Action.flush, Action.sleepMs HEALTHCHECK_INTERVAL_MS,
       Action.writeBytes PAYLOAD, Action.flush, Action.sleepMs HEALTHCHECK_INTERVAL_MS,
       Action.writeBytes PAYLOAD, Action.flush, Action.sleepMs HEALTHCHECK_INTERVAL_MS,
       Action.listenMs HEALTHCHECK_TIMEOUT_MS] ∧
    PAYLOAD = "\x7b\"healtcheck\": 1\x7d\n" ∧
    json_loads PAYLOAD = some HEALTHCHECK_JSON := by
  refine ⟨?_, by decide, by rfl⟩
  unfold probeActions
  rw [h1, writeOutcomes_all_ok scr h2, h2]
  rfl

lemma noSerialErrors_tail {e : ReadEvent} {evs : List ReadEvent}
    (h : noSerialErrors (e :: evs) = true) : noSerialErrors evs = true := by
  unfold noSerialErrors at h ⊢
  simp only [List.all_cons, Bool.and_eq_true] at h
  exact h.2

lemma aux_line_step (s : String) (evs : List ReadEvent) :
    leer_uid_loop_aux (ReadEvent.line s :: evs) =
      (match eventUid (ReadEvent.line s) with
       | some v => (ReadResult.uid v, 0)
       | none => leer_uid_loop_aux evs) := by
  simp only [leer_uid_loop_aux, eventUid]
  by_cases hs : pyStrip s = ""
  · rw [if_pos hs, hs]
    rfl
  · rw [if_neg hs]
    rcases hj : json_loads (pyStrip s) with _ | v
    · rfl
    · rcases v with _ | b | n | t | items | fields
      · rfl
      · rfl
      · rfl
      · rfl
      · rfl
      · rcases hd : dictGet fields "uid" with _ | u
        · rfl
        · rfl

lemma aux_ioError_step (msg : String) (reopenOk : Bool) (evs : List ReadEvent) :
    leer_uid_loop_aux (ReadEvent.ioError msg reopenOk :: evs) =
      (if esErrorDePuerto msg then
         (if reopenOk then ((leer_uid_loop_aux evs).1, (leer_uid_loop_aux evs).2 + 1)
          else (ReadResult.connectionLost, 1))
       else leer_uid_loop_aux evs) := by
  simp only [leer_uid_loop_aux]

lemma loop_findSome (evs : List ReadEvent) (h : noSerialErrors evs = true) :
    leer_uid_loop evs =
      (match evs.findSome? eventUid with
       | some v => ReadResult.uid v
       | none => ReadResult.timeout) := by
  induction evs with
  | nil => rfl
  | cons e evs ih =>
    cases e with
    | tick =>
      have h1 : leer_uid_loop (ReadEvent.tick :: evs) = leer_uid_loop evs := rfl
      have h2 : (ReadEvent.tick :: evs).findSome? eventUid = evs.findSome? eventUid :=
        List.findSome?_cons_of_isNone evs (by rfl)
      rw [h1, h2, ih (noSerialErrors_tail h)]
    | line s =>
      rcases he : eventUid (ReadEvent.line s) with _ | v
      · have h1 : leer_uid_loop (ReadEvent.line s :: evs) = leer_uid_loop evs := by
          unfold leer_uid_loop
          rw [aux_line_step, he]
        have h2 : (ReadEvent.line s :: evs).findSome? eventUid = evs.findSome? eventUid :=
          List.findSome?_cons_of_isNone evs (by rw [he]; rfl)
        rw [h1, h2, ih (noSerialErrors_tail h)]
      · have h1 : leer_uid_loop (ReadEvent.line s :: evs) = ReadResult.uid v := by
          unfold leer_uid_loop
          rw [aux_line_step, he]
        have h2 : (ReadEvent.line s :: evs).findSome? eventUid = some v := by
          rw [List.findSome?_cons_of_isSome evs (by rw [he]; rfl), he]
        rw [h1, h2]
    | ioError msg reopenOk =>
      exfalso
      unfold noSerialErrors at h
      simp [List.all_cons] at h

/-- C1: on a live connection, `leer_uid` returns the `"uid"` value of
the first line among the events preceding the timeout that — stripped —
JSON-decodes to an object containing a `"uid"` key, any further fields
of that object being ignored; empty lines, non-JSON lines and lines
decoding to values without such a key are skipped without aborting the
loop, and if no event yields a UID before the events (the timeout
window) are exhausted, the call raises `TimeoutError`. -/
theorem claim_C1_uid_read (puerto : Option String) (port : String) (pre : List String)
    (openOk : Bool) (bootJunk : List String) (evs : List ReadEvent)
    (h : noSerialErrors evs = true) :
    leer_uid ⟨puerto, some ⟨true, port, pre⟩⟩ openOk bootJunk evs =
      (match evs.findSome? eventUid with
       | some v => ReadResult.uid v
       | none => ReadResult.timeout) := by
  have hred : leer_uid ⟨puerto, some ⟨true, port, pre⟩⟩ openOk bootJunk evs
      = leer_uid_loop evs := rfl
  rw [hred, loop_findSome evs h]

/-- Instantiation of C1 on a window holding a quiet poll, a non-JSON
line, an empty line, and a UID line carrying an extra field. -/
theorem claim_C1_uid_read_witness :
    noSerialErrors [ReadEvent.tick, ReadEvent.line "garbage", ReadEvent.line "",
        ReadEvent.line "\x7b\"uid\":\"04A1B2C3\",\"extra\":true\x7d"] = true ∧
      leer_uid ⟨none, some ⟨true, "COM3", ["\x7b\"uid\":\"FF\"\x7d"]⟩⟩ true []
          [ReadEvent.tick, ReadEvent.line "garbage", ReadEvent.line "",
           ReadEvent.line "\x7b\"uid\":\"04A1B2C3\",\"extra\":true\x7d"] =
        (match ([ReadEvent.tick, ReadEvent.line "garbage", ReadEvent.line "",
                 ReadEvent.line "\x7b\"uid\":\"04A1B2C3\",\"extra\":true\x7d"].findSome? eventUid) with
         | some v => ReadResult.uid v
         | none => ReadResult.timeout) :=
  ⟨by rfl, claim_C1_uid_read none "COM3" ["\x7b\"uid\":\"FF\"\x7d"] true [] _ (by rfl)⟩

/-- C5: inside the read loop, an I/O error whose text classifies as
device/port loss triggers exactly one reopen attempt — its success lets
the loop continue over the remaining events with the attempt counted,
its failure raises (`connectionLost`) with exactly one attempt made —
while a line that fails JSON decoding changes neither the result nor
the number of reopen attempts. -/
theorem claim_C5_reconnection :
    (∀ (msg : String) (reopenOk : Bool) (evs : List ReadEvent),
        esErrorDePuerto msg = true →
        leer_uid_loop_aux (ReadEvent.ioError msg reopenOk :: evs) =
          (if reopenOk then ((leer_uid_loop_aux evs).1, (leer_uid_loop_aux evs).2 + 1)
           else (ReadResult.connectionLost, 1)))
    ∧ (∀ (s : String) (evs : List ReadEvent),
        json_loads (pyStrip s) = none →
        leer_uid_loop_aux (ReadEvent.line s :: evs) = leer_uid_loop_aux evs) := by
  constructor
  · intro msg reopenOk evs h
    rw [aux_ioError_step, if_pos h]
  · intro s evs h
    rw [aux_line_step]
    have he : eventUid (ReadEvent.line s) = none := by
      simp only [eventUid]
      rw [h]
    rw [he]

/-- Instantiation of C5 at a device-loss error followed by a successful
reopen and a UID line, and at a non-JSON line. -/
theorem claim_C5_reconnection_witness :
    (esErrorDePuerto "Lost device" = true ∧
      leer_uid_loop_aux (ReadEvent.ioError "Lost device" true ::
          [ReadEvent.line "\x7b\"uid\": \"04A1B2C3\"\x7d"]) =
        (if true then
           ((leer_uid_loop_aux [ReadEvent.line "\x7b\"uid\": \"04A1B2C3\"\x7d"]).1,
            (leer_uid_loop_aux [ReadEvent.line "\x7b\"uid\": \"04A1B2C3\"\x7d"]).2 + 1)
         else (ReadResult.connectionLost, 1)))
    ∧ (json_loads (pyStrip "no es json") = none ∧
        leer_uid_loop_aux (ReadEvent.line "no es json" :: []) = leer_uid_loop_aux []) :=
  ⟨⟨by rfl, claim_C5_reconnection.1 "Lost device" true _ (by rfl)⟩,
   ⟨by rfl, claim_C5_reconnection.2 "no es json" [] (by rfl)⟩⟩

/-- C10: every `leer_uid` call on an open connection discards the lines
already delivered to the input buffer before it starts polling
(`reset_input_buffer`): the result does not depend on the pre-call
buffer content at all, and in particular a call whose window carries no
new events times out even if a UID line was buffered beforehand. -/
theorem claim_C10_input_buffer_cleared :
    (∀ (puerto : Option String) (port : String) (pre pre' : List String)
        (openOk : Bool) (bootJunk : List String) (evs : List ReadEvent),
        leer_uid ⟨puerto, some ⟨true, port, pre⟩⟩ openOk bootJunk evs =
          leer_uid ⟨puerto, some ⟨true, port, pre'⟩⟩ openOk bootJunk evs)
    ∧ (∀ (puerto : Option String) (port : String) (pre : List String)
        (openOk : Bool) (bootJunk : List String),
        leer_uid ⟨puerto, some ⟨true, port, pre⟩⟩ openOk bootJunk [] =
          ReadResult.timeout) :=
  ⟨fun _ _ _ _ _ _ _ => rfl, fun _ _ _ _ _ => rfl⟩

lemma encontrar_ok (ps : List String) (probe : String → Bool) :
    encontrar_puerto_arduino (Except.ok ps) probe =
      (if ps = [] then Except.ok (FindOutcome.noPortsFound, 0)
       else
         match encontrar_loop probe ps with
         | (some p, n) => Except.ok (FindOutcome.found p, n)
         | (none, n) => Except.ok (FindOutcome.notFound, n)) := rfl

lemma encontrar_loop_allfail (probe : String → Bool) (ps : List String)
    (h : ∀ p ∈ ps, probe p = false) :
    encontrar_loop probe ps = (none, ps.length) := by
  induction ps with
  | nil => rfl
  | cons p ps ih =>
    have hp : probe p = false := h p (List.mem_cons_self _ _)
    have ht : ∀ q ∈ ps, probe q = false := fun q hq => h q (List.mem_cons_of_mem _ hq)
    simp [encontrar_loop, hp, ih ht]

lemma encontrar_loop_first (probe : String → Bool) (pre : List String) (p : String)
    (post : List String) (hpre : ∀ q ∈ pre, probe q = false) (hp : probe p = true) :
    encontrar_loop probe (pre ++ p :: post) = (some p, pre.length + 1) := by
  induction pre with
  | nil => simp [encontrar_loop, hp]
  | cons q pre ih =>
    have hq : probe q = false := hpre q (List.mem_cons_self _ _)
    have ht : ∀ r ∈ pre, probe r = false := fun r hr => hpre r (List.mem_cons_of_mem _ hr)
    simp [encontrar_loop, hq, ih ht]

/-- C4: discovery probes the enumerated ports sequentially in
host-reported order; when no port qualifies it makes exactly one probe
attempt per port (N attempts for N ports), terminates, and reports a
discovery failure (the no-ports outcome for an empty list), and when
some port qualifies it stops at the first qualifying port and returns
its identifier, having probed exactly the ports up to and including
it. -/
theorem claim_C4_discovery_scan :
    (∀ (probe : String → Bool) (ps : List String),
        (∀ p ∈ ps, probe p = false) →
        encontrar_puerto_arduino (Except.ok ps) probe =
          Except.ok (if ps = [] then (FindOutcome.noPortsFound, 0)
                     else (FindOutcome.notFound, ps.length)))
    ∧ (∀ (probe : String → Bool) (pre : List String) (p : String) (post : List String),
        (∀ q ∈ pre, probe q = false) → probe p = true →
        encontrar_puerto_arduino (Except.ok (pre ++ p :: post)) probe =
          Except.ok (FindOutcome.found p, pre.length + 1)) := by
  constructor
  · intro probe ps h
    by_cases hps : ps = []
    · subst hps
      rfl
    · rw [encontrar_ok]
      simp only [if_neg hps]
      rw [encontrar_loop_allfail probe ps h]
  · intro probe pre p post hpre hp
    have hne : pre ++ p :: post ≠ [] := by simp
    rw [encontrar_ok]
    simp only [if_neg hne]
    rw [encontrar_loop_first probe pre p post hpre hp]

/-- Instantiation of C4 on a two-port list with no compliant device and
on a three-port list whose second port hosts the reader. -/
theorem claim_C4_discovery_scan_witness :
    ((∀ p ∈ ["COM1", "COM2"], (fun s => s == "COM3") p = false) ∧
      encontrar_puerto_arduino (Except.ok ["COM1", "COM2"]) (fun s => s == "COM3") =
        Except.ok (if ["COM1", "COM2"] = ([] : List String) then (FindOutcome.noPortsFound, 0)
                   else (FindOutcome.notFound, (["COM1", "COM2"] : List String).length)))
    ∧ ((∀ q ∈ ["COM1"], (fun s => s == "COM3") q = false) ∧
        (fun s => s == "COM3") "COM3" = true ∧
        encontrar_puerto_arduino (Except.ok (["COM1"] ++ "COM3" :: ["COM4"]))
            (fun s => s == "COM3") =
          Except.ok (FindOutcome.found "COM3", (["COM1"] : List String).length + 1)) :=
  ⟨⟨by decide, claim_C4_discovery_scan.1 _ _ (by decide)⟩,
   ⟨by decide, by decide, claim_C4_discovery_scan.2 _ _ _ _ (by decide) (by decide)⟩⟩

/-- C9 counterexample: a failing enumeration is not converted into an
empty port list — the exception propagates out of
`encontrar_puerto_arduino` (the list comprehension over
`list_ports.comports()` has no handler), so it is distinguishable from
a host with no serial ports, which yields the no-ports outcome. -/
theorem claim_C9_counterexample :
    encontrar_puerto_arduino (Except.error "enumeration failure") (fun _ => false) =
        Except.error "enumeration failure" ∧
      encontrar_puerto_arduino (Except.error "enumeration failure") (fun _ => false) ≠
        encontrar_puerto_arduino (Except.ok []) (fun _ => false) :=
  ⟨rfl, fun h => Except.noConfusion h⟩

/-- C9 amended: an enumeration failure propagates unchanged to the
caller of the discovery routine (it is not mapped to the empty list),
while an empty enumeration yields the no-ports discovery failure with
zero probe attempts. -/
theorem claim_C9_enumeration_failure :
    (∀ (e : String) (probe : String → Bool),
        encontrar_puerto_arduino (Except.error e) probe = Except.error e)
    ∧ (∀ probe : String → Bool,
        encontrar_puerto_arduino (Except.ok []) probe =
          Except.ok (FindOutcome.noPortsFound, 0)) :=
  ⟨fun _ _ => rfl, fun _ => rfl⟩

/-- Instantiation of C6 at a run with a successful open and all
transmissions succeeding. -/
theorem claim_C6_probe_transmission_witness :
    (⟨true, [], []⟩ : ProbeScript).openOk = true ∧
      allWritesOk ⟨true, [], []⟩ = true ∧
      (probeActions ⟨true, [], []⟩ =
        [Action.settleMs SERIAL_OPEN_RESET_WAIT_MS, Action.clearInput, Action.clearOutput,
         Action.writeBytes PAYLOAD, Action.flush, Action.sleepMs HEALTHCHECK_INTERVAL_MS,
         Action.writeBytes PAYLOAD, Action.flush, Action.sleepMs HEALTHCHECK_INTERVAL_MS,
         Action.writeBytes PAYLOAD, Action.flush, Action.sleepMs HEALTHCHECK_INTERVAL_MS,
         Action.listenMs HEALTHCHECK_TIMEOUT_MS] ∧
       PAYLOAD = "\x7b\"healtcheck\": 1\x7d\n" ∧
       json_loads PAYLOAD = some HEALTHCHECK_JSON) :=
  ⟨rfl, by decide, claim_C6_probe_transmission ⟨true, [], []⟩ rfl (by decide)⟩

lemma not_midProg_lockedSection (b : List Nat) : ¬ midProg (lockedSection b) := by
  rintro ⟨l, hl⟩
  unfold lockedSection at hl
  cases l with
  | nil => simp at hl
  | cons a l => simp at hl

lemma not_midProg_nil : ¬ midProg [] := by
  rintro ⟨l, hl⟩
  cases l with
  | nil => simp at hl
  | cons a l => simp at hl

/-- Invariant of reachable states: each remaining program is the full
locked section, a mid-section remainder, or finished, and a caller
sitting in its mid-section holds the lock. -/
def LockInv (b0 b1 : List Nat) (s : LockSys) : Prop :=
  (s.prog0 = lockedSection b0 ∨ midProg s.prog0 ∨ s.prog0 = []) ∧
  (s.prog1 = lockedSection b1 ∨ midProg s.prog1 ∨ s.prog1 = []) ∧
  (midProg s.prog0 → s.lock = some false) ∧
  (midProg s.prog1 → s.lock = some true)

lemma lockStep_inv {b0 b1 : List Nat} {s s' : LockSys}
    (hinv : LockInv b0 b1 s) (hstep : LockStep s s') : LockInv b0 b1 s' := by
  obtain ⟨h0, h1, hm0, hm1⟩ := hinv
  cases hstep with
  | acq t rest hhead hlock =>
    cases t
    · have hh : s.prog0 = Instr.acquire :: rest := hhead
      have hmid : midProg rest := by
        rcases h0 with hfull | hmid | hnil
        · have h2 : Instr.acquire :: rest =
              Instr.acquire :: (b0.map Instr.transport ++ [Instr.release]) := by
            rw [← hh, hfull]
            rfl
          exact ⟨b0, by injection h2⟩
        · exact absurd (hlock ▸ hm0 hmid) (by simp)
        · rw [hnil] at hh
          cases hh
      refine ⟨Or.inr (Or.inl hmid), h1, fun _ => rfl, fun hmid1 => ?_⟩
      exact absurd (hlock ▸ hm1 hmid1) (by simp)
    · have hh : s.prog1 = Instr.acquire :: rest := hhead
      have hmid : midProg rest := by
        rcases h1 with hfull | hmid | hnil
        · have h2 : Instr.acquire :: rest =
              Instr.acquire :: (b1.map Instr.transport ++ [Instr.release]) := by
            rw [← hh, hfull]
            rfl
          exact ⟨b1, by injection h2⟩
        · exact absurd (hlock ▸ hm1 hmid) (by simp)
        · rw [hnil] at hh
          cases hh
      refine ⟨h0, Or.inr (Or.inl hmid), fun hmid0 => ?_, fun _ => rfl⟩
      exact absurd (hlock ▸ hm0 hmid0) (by simp)
  | tra t k rest hhead =>
    cases t
    · have hh : s.prog0 = Instr.transport k :: rest := hhead
      have hmid0 : midProg s.prog0 := by
        rcases h0 with hfull | hmid | hnil
        · rw [hfull] at hh
          unfold lockedSection at hh
          simp at hh
        · exact hmid
        · rw [hnil] at hh
          cases hh
      have hmid : midProg rest := by
        obtain ⟨l, hl⟩ := hmid0
        rw [hh] at hl
        cases l with
        | nil => simp at hl
        | cons a l =>
          simp only [List.map_cons, List.cons_append, List.cons.injEq] at hl
          exact ⟨l, hl.2⟩
      exact ⟨Or.inr (Or.inl hmid), h1, fun _ => hm0 hmid0, hm1⟩
    · have hh : s.prog1 = Instr.transport k :: rest := hhead
      have hmid1 : midProg s.prog1 := by
        rcases h1 with hfull | hmid | hnil
        · rw [hfull] at hh
          unfold lockedSection at hh
          simp at hh
        · exact hmid
        · rw [hnil] at hh
          cases hh
      have hmid : midProg rest := by
        obtain ⟨l, hl⟩ := hmid1
        rw [hh] at hl
        cases l with
        | nil => simp at hl
        | cons a l =>
          simp only [List.map_cons, List.cons_append, List.cons.injEq] at hl
          exact ⟨l, hl.2⟩
      exact ⟨h0, Or.inr (Or.inl hmid), hm0, fun _ => hm1 hmid1⟩
  | rel t rest hhead =>
    cases t
    · have hh : s.prog0 = Instr.release :: rest := hhead
      have hmid0 : midProg s.prog0 := by
        rcases h0 with hfull | hmid | hnil
        · rw [hfull] at hh
          unfold lockedSection at hh
          simp at hh
        · exact hmid
        · rw [hnil] at hh
          cases hh
      have hrest : rest = [] := by
        obtain ⟨l, hl⟩ := hmid0
        rw [hh] at hl
        cases l with
        | nil =>
          simp only [List.map_nil, List.nil_append, List.cons.injEq] at hl
          exact hl.2
        | cons a l => simp at hl
      subst hrest
      refine ⟨Or.inr (Or.inr rfl), h1, fun hmid => absurd hmid not_midProg_nil,
        fun hmid1 => ?_⟩
      exact absurd ((hm0 hmid0).symm.trans (hm1 hmid1)) (by simp)
    · have hh : s.prog1 = Instr.release :: rest := hhead
      have hmid1 : midProg s.prog1 := by
        rcases h1 with hfull | hmid | hnil
        · rw [hfull] at hh
          unfold lockedSection at hh
          simp at hh
        · exact hmid
        · rw [hnil] at hh
          cases hh
      have hrest : rest = [] := by
        obtain ⟨l, hl⟩ := hmid1
        rw [hh] at hl
        cases l with
        | nil =>
          simp only [List.map_nil, List.nil_append, List.cons.injEq] at hl
          exact hl.2
        | cons a l => simp at hl
      subst hrest
      refine ⟨h0, Or.inr (Or.inr rfl), fun hmid0 => ?_,
        fun hmid => absurd hmid not_midProg_nil⟩
      exact absurd ((hm1 hmid1).symm.trans (hm0 hmid0)) (by simp)

lemma lockReach_inv {b0 b1 : List Nat} {s : LockSys} (h : LockReach b0 b1 s) :
    LockInv b0 b1 s := by
  induction h with
  | init =>
    exact ⟨Or.inl rfl, Or.inl rfl,
      fun hm => absurd hm (not_midProg_lockedSection b0),
      fun hm => absurd hm (not_midProg_lockedSection b1)⟩
  | step hreach hstep ih => exact lockStep_inv ih hstep

/-- C7: in every state reachable by interleaving two callers of
`leer_uid` (each an acquire of `connection_lock`, its byte-level
transport operations on the connection, and the release), the two
callers are never simultaneously inside their lock-protected sections,
and a caller about to execute a transport operation necessarily holds
the lock — so at most one transport operation is in flight at any
instant and the byte sequences of concurrent callers cannot
interleave. -/
theorem claim_C7_connection_lock_mutex (b0 b1 : List Nat) (s : LockSys)
    (h : LockReach b0 b1 s) :
    (¬ (midProg s.prog0 ∧ midProg s.prog1)) ∧
    (∀ (k : Nat) (rest : List Instr),
        s.prog0 = Instr.transport k :: rest → s.lock = some false) ∧
    (∀ (k : Nat) (rest : List Instr),
        s.prog1 = Instr.transport k :: rest → s.lock = some true) := by
  obtain ⟨h0, h1, hm0, hm1⟩ := lockReach_inv h
  refine ⟨?_, ?_, ?_⟩
  · rintro ⟨m0, m1⟩
    exact absurd ((hm0 m0).symm.trans (hm1 m1)) (by simp)
  · intro k rest hk
    apply hm0
    rcases h0 with hfull | hmid | hnil
    · rw [hfull] at hk
      unfold lockedSection at hk
      simp at hk
    · exact hmid
    · rw [hnil] at hk
      cases hk
  · intro k rest hk
    apply hm1
    rcases h1 with hfull | hmid | hnil
    · rw [hfull] at hk
      unfold lockedSection at hk
      simp at hk
    · exact hmid
    · rw [hnil] at hk
      cases hk

/-- Instantiation of C7 at the reachable state in which the first
caller has acquired the lock and is about to perform its transport
operation while the second caller has not started. -/
theorem claim_C7_connection_lock_mutex_witness :
    (¬ (midProg (⟨some false, [Instr.transport 0, Instr.release],
          lockedSection [1]⟩ : LockSys).prog0 ∧
        midProg (⟨some false, [Instr.transport 0, Instr.release],
          lockedSection [1]⟩ : LockSys).prog1)) ∧
    (∀ (k : Nat) (rest : List Instr),
        (⟨some false, [Instr.transport 0, Instr.release],
          lockedSection [1]⟩ : LockSys).prog0 = Instr.transport k :: rest →
        (⟨some false, [Instr.transport 0, Instr.release],
          lockedSection [1]⟩ : LockSys).lock = some false) ∧
    (∀ (k : Nat) (rest : List Instr),
        (⟨some false, [Instr.transport 0, Instr.release],
          lockedSection [1]⟩ : LockSys).prog1 = Instr.transport k :: rest →
        (⟨some false, [Instr.transport 0, Instr.release],
          lockedSection [1]⟩ : LockSys).lock = some true) :=
  claim_C7_connection_lock_mutex [0] [1] _
    (LockReach.step LockReach.init
      (LockStep.acq (lockInit [0] [1]) false [Instr.transport 0, Instr.release] rfl rfl))

/-- C8 counterexample: the probe discards both the input and the output
buffer after its boot-settle wait, but `abrir_conexion_serial` resets
only the input buffer — the buffer-clear it performs is not the same as
the one the probe performs. -/
theorem claim_C8_counterexample :
    Action.clearOutput ∈ probeActions ⟨true, [], []⟩ ∧
      Action.clearOutput ∉ (abrir_conexion_serial ⟨some "COM1", none⟩ true []).2.2 := by
  decide

/-- C8 amended: opening the persistent connection is idempotent — an
already-open prior connection is closed first, even when the new open
then fails; a successful open installs the single new connection, open
on `self.puerto`, performs the same 2.0 s boot-settle wait as the probe
and clears the input buffer (but, unlike the probe, not the output
buffer); a failed open returns failure and leaves no open connection
installed. -/
theorem claim_C8_open_idempotent :
    (∀ (st : SysState) (c : Conn) (junk : List String),
        st.serial_connection = some c → c.isOpen = true →
        (abrir_conexion_serial st false junk).2.1.serial_connection =
          some { c with isOpen := false })
    ∧ (∀ (st : SysState) (junk : List String),
        (abrir_conexion_serial st true junk).1 = true ∧
        (abrir_conexion_serial st true junk).2.1.serial_connection =
          some { isOpen := true, port := st.puerto.getD "", pending := [] } ∧
        (abrir_conexion_serial st true junk).2.2 =
          [Action.settleMs SERIAL_OPEN_RESET_WAIT_MS, Action.clearInput])
    ∧ (∀ (st : SysState) (junk : List String),
        (abrir_conexion_serial st false junk).1 = false ∧
        ∀ c', (abrir_conexion_serial st false junk).2.1.serial_connection = some c' →
          c'.isOpen = false) := by
  refine ⟨?_, ?_, ?_⟩
  · intro st c junk h hopen
    simp [abrir_conexion_serial, h, hopen]
  · intro st junk
    exact ⟨rfl, rfl, rfl⟩
  · intro st junk
    refine ⟨rfl, ?_⟩
    intro c' h'
    rcases hsc : st.serial_connection with _ | c
    · have h2 : (abrir_conexion_serial st false junk).2.1.serial_connection =
          st.serial_connection := by
        simp [abrir_conexion_serial, hsc]
      rw [h2, hsc] at h'
      cases h'
    · cases hco : c.isOpen
      · have h2 : (abrir_conexion_serial st false junk).2.1.serial_connection =
            st.serial_connection := by
          simp [abrir_conexion_serial, hsc, hco]
        rw [h2, hsc] at h'
        injection h' with h''
        subst h''
        exact hco
      · have h2 : (abrir_conexion_serial st false junk).2.1.serial_connection =
            some { c with isOpen := false } := by
          simp [abrir_conexion_serial, hsc, hco]
        rw [h2] at h'
        injection h' with h''
        subst h''
        rfl

/-- Instantiation of C8 amended: closing of an open prior connection
when the new open fails, at a concrete state. -/
theorem claim_C8_open_idempotent_witness :
    (⟨some "COM1", some ⟨true, "COM1", ["x"]⟩⟩ : SysState).serial_connection =
        some ⟨true, "COM1", ["x"]⟩ ∧
      (⟨true, "COM1", ["x"]⟩ : Conn).isOpen = true ∧
      (abrir_conexion_serial ⟨some "COM1", some ⟨true, "COM1", ["x"]⟩⟩
            false []).2.1.serial_connection =
        some { (⟨true, "COM1", ["x"]⟩ : Conn) with isOpen := false } :=
  ⟨rfl, rfl, claim_C8_open_idempotent.1 _ _ [] rfl rfl⟩

end RFID
